import Mathlib

set_option autoImplicit false

/-!
Verification of the client-side CRUD controller of the Todos application
(`src/app/page.tsx` with its API client `src/lib/api.ts`).

The controller owns three pieces of local state: the todo list (`todos`,
initialised to `[]`), the edit cursor (`editId`, a nullable number), and
the form values (managed by `useForm` with fixed default values).  The
four operations `loadTodos`, `onSubmit`, `handleEdit` and `handleDelete`
are embedded below as pure state transformers; the outcome of each remote
call is passed in as an explicit parameter, and the API calls issued and
the toast notifications emitted are returned alongside the new state.

JavaScript truthiness matters: `if (editId)`, `if (!todo.id)` and
`if (!id)` treat the number 0 exactly like `null`/`undefined`; the
embedding models a nullable number as `Option Int` and tests truthiness
with `truthyId`.
-/

/-- The `Todo` record (`@/types/todo`): `id` and `description` are
optional fields of the JSON shape. -/
structure Todo where
  id : Option Int
  title : String
  description : Option String
  completed : Bool
  deriving Repr, DecidableEq

/-- The shape managed by `useForm<TodoInput>`: title, description and
completed, all present in the form state. -/
structure FormValues where
  title : String
  description : String
  completed : Bool
  deriving Repr, DecidableEq

/-- `defaultValues` passed to `useForm` in `page.tsx`. -/
def defaultValues : FormValues :=
  { title := "", description := "", completed := false }

/-- The local state owned by the `TodosApp` component: the three
`useState` hooks plus the form values. -/
structure AppState where
  todos : List Todo
  loading : Bool
  editId : Option Int
  formValues : FormValues
  deriving Repr, DecidableEq

/-- Component state at mount: `useState<Todo[]>([])`, `useState(true)`,
`useState<number | null>(null)`, and the form at its default values. -/
def initState : AppState :=
  { todos := [], loading := true, editId := none, formValues := defaultValues }

/-- An HTTP request issued through the API client (`src/lib/api.ts`). -/
inductive ApiCall where
  | list : ApiCall
  | create : FormValues → ApiCall
  | update : Int → FormValues → ApiCall
  | delete : Int → ApiCall
  deriving Repr, DecidableEq

/-- A toast notification (the `sonner` side channel). -/
inductive Note where
  | success : String → Note
  | error : String → Note
  deriving Repr, DecidableEq

/-- Outcome of `getTodos()`: a resolved response whose `data` may be a
null/undefined body, or a rejection. -/
inductive LoadResult where
  | ok : Option (List Todo) → LoadResult
  | err : LoadResult
  deriving Repr, DecidableEq

/-- Outcome of a create/update/delete remote call. -/
inductive CallResult where
  | ok : CallResult
  | err : CallResult
  deriving Repr, DecidableEq

/-- JavaScript truthiness of a nullable number: `null`/`undefined` and
`0` are falsy, every other number is truthy. -/
def truthyId : Option Int → Bool
  | none => false
  | some i => i != 0

/-- One step of the controller: the state after it, the API calls it
issued, and the notifications it emitted, in order. -/
abbrev StepResult := AppState × List ApiCall × List Note

/-- `loadTodos` in `page.tsx`: call `getTodos()`; on success store
`res.data || []`; on failure toast a load error and leave the rest of the
state alone; in both cases clear the loading flag (`finally`). -/
def loadTodos (s : AppState) (r : LoadResult) : StepResult :=
  match r with
  | .ok data => ({ s with todos := data.getD [], loading := false }, [.list], [])
  | .err => ({ s with loading := false }, [.list], [.error "Failed to load todos"])

/-- `onSubmit` in `page.tsx`: if `editId` is truthy call
`updateTodo(editId, values)`, otherwise `createTodo(values)`; on success
toast, `form.reset()`, `setEditId(null)` and re-run `loadTodos`; a
rejection is caught and toasted with the state untouched.  `r` is the
outcome of the create/update call and `lr` the outcome of the reload. -/
def onSubmit (s : AppState) (values : FormValues) (r : CallResult)
    (lr : LoadResult) : StepResult :=
  let call := if truthyId s.editId then
    ApiCall.update (s.editId.getD 0) values else ApiCall.create values
  let note := if truthyId s.editId then
    Note.success "Todo updated!" else Note.success "Todo added!"
  match r with
  | .ok =>
    let afterReset := { s with formValues := defaultValues, editId := none }
    let reload := loadTodos afterReset lr
    (reload.1, call :: reload.2.1, note :: reload.2.2)
  | .err => (s, [call], [.error "Something went wrong!"])

/-- `handleEdit` in `page.tsx`: `if (!todo.id) return;` then set the edit
cursor and copy `title`, `description || ""` and `completed` into the
form; the todo list itself is not touched. -/
def handleEdit (s : AppState) (todo : Todo) : AppState :=
  if truthyId todo.id then
    { s with
      editId := todo.id
      formValues :=
        { title := todo.title
          description := todo.description.getD ""
          completed := todo.completed } }
  else s

/-- `handleDelete` in `page.tsx`: `if (!id) return;` then call
`deleteTodo(id)`; on success toast and filter the local list by
`t.id !== id`; a rejection is caught and toasted with the list intact. -/
def handleDelete (s : AppState) (id : Option Int) (r : CallResult) : StepResult :=
  if truthyId id then
    match r with
    | .ok =>
      ({ s with todos := s.todos.filter (fun t => t.id != id) },
       [.delete (id.getD 0)], [.success "Todo deleted!"])
    | .err => (s, [.delete (id.getD 0)], [.error "Delete failed"])
  else (s, [], [])

/-- Modelled from the spec: the validation schema `todoSchema`
(`@/lib/validations/todo`, not under `src/`): `title` is required with
minimum length 1, `description` is optional, `completed` is a boolean
defaulting to false.  On failure it yields a mapping from field name to a
human-readable message. -/
def todoSchema (v : FormValues) : Option (List (String × String)) :=
  if v.title.length ≥ 1 then none else some [("title", "Title is required")]

/-- Modelled from the spec: `form.handleSubmit(onSubmit)` of the form
library (not under `src/`): validation runs synchronously before
submission and on failure the submission is aborted with no network
call, surfacing the field errors instead of invoking `onSubmit`. -/
def handleSubmit (s : AppState) (values : FormValues) (r : CallResult)
    (lr : LoadResult) : StepResult :=
  match todoSchema values with
  | some _ => (s, [], [])
  | none => onSubmit s values r lr

/-! Concrete fixtures used by witnesses and counterexamples. -/

/-- A persisted record with id 1. -/
def tA : Todo := { id := some 1, title := "A", description := none, completed := false }

/-- A persisted record with id 2. -/
def tB : Todo := { id := some 2, title := "B", description := some "desc", completed := true }

/-- A ready state holding the two records, not editing. -/
def sAB : AppState :=
  { todos := [tA, tB], loading := false, editId := none, formValues := defaultValues }

/-- Form values for a record titled B. -/
def vB : FormValues := { title := "B", description := "", completed := false }

/-- A ready state holding record `tA` while editing id 1. -/
def sEditing : AppState :=
  { todos := [tA], loading := false, editId := some 1,
    formValues := { title := "A", description := "", completed := false } }

/-- C2 fails on the code: with the edit cursor at id 1, a successful load
returning a list that does not contain id 1 leaves the cursor set. -/
theorem c2_counterexample :
    (loadTodos sEditing (LoadResult.ok (some []))).1.editId ≠ none := by decide

/-- C2 amended: `loadTodos` never touches the edit cursor or the form
values, whatever the outcome of the remote call; a cursor made stale by
the new list simply persists. -/
theorem loadTodos_preserves_editId (s : AppState) (r : LoadResult) :
    (loadTodos s r).1.editId = s.editId ∧ (loadTodos s r).1.formValues = s.formValues := by
  cases r <;> exact ⟨rfl, rfl⟩

/-- C3 fails on the code: a failed load from a state holding one record
does not empty the local list. -/
theorem c3_counterexample :
    (loadTodos sEditing LoadResult.err).1.todos ≠ [] := by decide

/-- C3 amended: when `list()` fails, the load transition leaves the todo
list and the edit cursor unchanged and reports exactly one load-failure
notification. -/
theorem loadTodos_err_frame (s : AppState) :
    (loadTodos s LoadResult.err).1.todos = s.todos ∧
    (loadTodos s LoadResult.err).1.editId = s.editId ∧
    (loadTodos s LoadResult.err).2.2 = [Note.error "Failed to load todos"] :=
  ⟨rfl, rfl, rfl⟩

/-- C10: the todo list is always a genuine list: it starts empty, and a
successful load whose body is null/undefined stores the empty list. -/
theorem todos_always_list :
    initState.todos = [] ∧
    ∀ (s : AppState), (loadTodos s (LoadResult.ok none)).1.todos = [] :=
  ⟨rfl, fun _ => rfl⟩

/-- C5: a rejected create/update or delete call is caught inside the
controller, leaves the whole local state (list, cursor, form values)
unchanged, and emits exactly one error notification. -/
theorem remoteFailure_frame (s : AppState) (v : FormValues) (lr : LoadResult)
    (i : Int) (hi : i ≠ 0) :
    (onSubmit s v CallResult.err lr).1 = s ∧
    (onSubmit s v CallResult.err lr).2.2 = [Note.error "Something went wrong!"] ∧
    (handleDelete s (some i) CallResult.err).1 = s ∧
    (handleDelete s (some i) CallResult.err).2.2 = [Note.error "Delete failed"] := by
  have ht : truthyId (some i) = true := by simp [truthyId, hi]
  refine ⟨rfl, rfl, ?_, ?_⟩ <;> simp [handleDelete, ht]

/-- C5 witness at a concrete editing state and id 1. -/
theorem remoteFailure_frame_witness :
    (1 : Int) ≠ 0 ∧
    ((onSubmit sEditing vB CallResult.err LoadResult.err).1 = sEditing ∧
     (onSubmit sEditing vB CallResult.err LoadResult.err).2.2 =
       [Note.error "Something went wrong!"] ∧
     (handleDelete sEditing (some 1) CallResult.err).1 = sEditing ∧
     (handleDelete sEditing (some 1) CallResult.err).2.2 = [Note.error "Delete failed"]) :=
  ⟨by decide, remoteFailure_frame sEditing vB LoadResult.err 1 (by decide)⟩

/-- A record whose id is the integer 0. -/
def tZero : Todo := { id := some 0, title := "Z", description := some "d", completed := true }

/-- A ready state whose edit cursor holds the integer 0. -/
def sZero : AppState :=
  { todos := [], loading := false, editId := some 0, formValues := vB }

/-- C9: id 0 behaves as absent: Edit of a record with id 0 and Delete of
id 0 change nothing and issue no API call, and a submit whose edit cursor
holds 0 issues a create, not an update. -/
theorem zeroId_treated_as_absent (s : AppState) (t : Todo) (v : FormValues)
    (r : CallResult) (lr : LoadResult) (ht : t.id = some 0) (he : s.editId = some 0) :
    handleEdit s t = s ∧
    handleDelete s (some 0) r = (s, [], []) ∧
    (onSubmit s v r lr).2.1.head? = some (ApiCall.create v) := by
  refine ⟨?_, ?_, ?_⟩
  · simp [handleEdit, truthyId, ht]
  · simp [handleDelete, truthyId]
  · cases r <;> simp [onSubmit, truthyId, he]

/-- C9 witness: the three behaviours at the concrete record `tZero` and
the concrete state `sZero`. -/
theorem zeroId_treated_as_absent_witness :
    tZero.id = some 0 ∧ sZero.editId = some 0 ∧
    (handleEdit sZero tZero = sZero ∧
     handleDelete sZero (some 0) CallResult.ok = (sZero, [], []) ∧
     (onSubmit sZero vB CallResult.ok (LoadResult.ok (some []))).2.1.head? =
       some (ApiCall.create vB)) :=
  ⟨rfl, rfl,
    zeroId_treated_as_absent sZero tZero vB CallResult.ok (LoadResult.ok (some [])) rfl rfl⟩

/-- C6: a submit that fails validation issues zero API calls and changes
nothing, and empty-title values always fail validation. -/
theorem validation_gate (s : AppState) (v : FormValues) (r : CallResult) (lr : LoadResult) :
    ((todoSchema v).isSome → handleSubmit s v r lr = (s, [], [])) ∧
    (v.title = "" → (todoSchema v).isSome) := by
  constructor
  · intro h
    unfold handleSubmit
    cases hv : todoSchema v with
    | some e => rfl
    | none => rw [hv] at h; exact absurd h (by simp)
  · intro h
    simp [todoSchema, h, String.length]

/-- C6 witness: submitting the empty-title default values from the ready
state performs no API call. -/
theorem validation_gate_witness :
    ((todoSchema defaultValues).isSome →
      handleSubmit sAB defaultValues CallResult.ok LoadResult.err = (sAB, [], [])) ∧
    (defaultValues.title = "" → (todoSchema defaultValues).isSome) :=
  validation_gate sAB defaultValues CallResult.ok LoadResult.err

/-- C8 fails on the code: `tZero` has an id present (the integer 0), yet
Edit does not set the edit cursor to it. -/
theorem c8_counterexample : (handleEdit sAB tZero).editId ≠ some 0 := by decide

/-- C8 amended: Edit of a record with a present nonzero id sets the
cursor to that id and copies title, description (defaulted to the empty
string when absent) and completed into the form, leaving the todo list
untouched; Edit of a record whose id is absent or 0 is a no-op. -/
theorem handleEdit_spec (s : AppState) (t : Todo) (i : Int) :
    (t.id = some i → i ≠ 0 →
      handleEdit s t =
        { s with
          editId := some i
          formValues :=
            { title := t.title
              description := t.description.getD ""
              completed := t.completed } }) ∧
    (t.id = none ∨ t.id = some 0 → handleEdit s t = s) := by
  constructor
  · intro ht hi
    simp [handleEdit, truthyId, ht, hi]
  · rintro (ht | ht) <;> simp [handleEdit, truthyId, ht]

/-- C8 witness: editing `tB` from the ready state sets cursor 2 and the
form fields; editing `tZero` changes nothing. -/
theorem handleEdit_spec_witness :
    (tB.id = some 2 ∧ (2 : Int) ≠ 0 ∧
      handleEdit sAB tB =
        { sAB with
          editId := some 2
          formValues := { title := "B", description := "desc", completed := true } }) ∧
    (tZero.id = some 0 ∧ handleEdit sAB tZero = sAB) :=
  ⟨⟨rfl, by decide, (handleEdit_spec sAB tB 2).1 rfl (by decide)⟩,
   ⟨rfl, (handleEdit_spec sAB tZero 0).2 (Or.inr rfl)⟩⟩

/-- C7: on local state, Delete is idempotent (a second successful delete
of the same id changes nothing more) and Delete of an id absent from the
list is a no-op whether the remote call succeeds or fails. -/
theorem handleDelete_idempotent_and_absent (s : AppState) (id : Option Int) (i : Int)
    (r : CallResult) (habs : some i ∉ s.todos.map Todo.id) :
    (handleDelete (handleDelete s id CallResult.ok).1 id CallResult.ok).1.todos
      = (handleDelete s id CallResult.ok).1.todos ∧
    (handleDelete s (some i) r).1 = s := by
  constructor
  · cases htruthy : truthyId id <;>
      simp [handleDelete, htruthy, List.filter_filter]
  · by_cases hi : i = 0
    · subst hi; simp [handleDelete, truthyId]
    · have ht : truthyId (some i) = true := by simp [truthyId, hi]
      cases r
      · have hself : s.todos.filter (fun t => t.id != some i) = s.todos := by
          apply List.filter_eq_self.mpr
          intro t htmem
          simp only [bne_iff_ne, ne_eq]
          intro heq
          exact habs (heq ▸ List.mem_map_of_mem Todo.id htmem)
        simp [handleDelete, ht, hself]
      · simp [handleDelete, ht]

/-- C7 witness: deleting id 1 twice from the two-record state, and a
failed delete of the absent id 5. -/
theorem handleDelete_idempotent_and_absent_witness :
    some (5 : Int) ∉ sAB.todos.map Todo.id ∧
    ((handleDelete (handleDelete sAB (some 1) CallResult.ok).1 (some 1) CallResult.ok).1.todos
       = (handleDelete sAB (some 1) CallResult.ok).1.todos ∧
     (handleDelete sAB (some 5) CallResult.err).1 = sAB) :=
  ⟨by decide, handleDelete_idempotent_and_absent sAB (some 1) 5 CallResult.err (by decide)⟩

/-- C4 fails on the code: with the edit cursor set to the integer 0, a
validated submit does not call update with that cursor; it calls create
instead. -/
theorem c4_counterexample :
    ApiCall.update 0 vB ∉ (onSubmit sZero vB CallResult.ok (LoadResult.ok (some []))).2.1 ∧
    ApiCall.create vB ∈ (onSubmit sZero vB CallResult.ok (LoadResult.ok (some []))).2.1 := by
  decide

/-- C4 amended: on a validated submit with the edit cursor set to a
nonzero id, a successful update clears the cursor, resets the form to the
defaults and re-runs the load transition on that state; with the cursor
null or 0, a successful create does the same after the create call. -/
theorem onSubmit_success_spec (s : AppState) (v : FormValues) (i : Int) (lr : LoadResult) :
    (s.editId = some i → i ≠ 0 →
      onSubmit s v CallResult.ok lr =
        ((loadTodos { s with formValues := defaultValues, editId := none } lr).1,
         [ApiCall.update i v, ApiCall.list],
         Note.success "Todo updated!" ::
           (loadTodos { s with formValues := defaultValues, editId := none } lr).2.2)) ∧
    ((s.editId = none ∨ s.editId = some 0) →
      onSubmit s v CallResult.ok lr =
        ((loadTodos { s with formValues := defaultValues, editId := none } lr).1,
         [ApiCall.create v, ApiCall.list],
         Note.success "Todo added!" ::
           (loadTodos { s with formValues := defaultValues, editId := none } lr).2.2)) := by
  constructor
  · intro he hi
    have ht : truthyId (some i) = true := by simp [truthyId, hi]
    cases lr <;> simp [onSubmit, loadTodos, he, ht]
  · intro he
    have ht : truthyId s.editId = false := by
      rcases he with he | he <;> simp [truthyId, he]
    cases lr <;> simp [onSubmit, loadTodos, ht]

/-- C4 witness: a successful update-submit from the editing state and a
successful create-submit from the non-editing state. -/
theorem onSubmit_success_spec_witness :
    (sEditing.editId = some 1 ∧ (1 : Int) ≠ 0 ∧
      onSubmit sEditing vB CallResult.ok (LoadResult.ok (some [tB])) =
        ((loadTodos { sEditing with formValues := defaultValues, editId := none }
            (LoadResult.ok (some [tB]))).1,
         [ApiCall.update 1 vB, ApiCall.list],
         Note.success "Todo updated!" ::
           (loadTodos { sEditing with formValues := defaultValues, editId := none }
              (LoadResult.ok (some [tB]))).2.2)) ∧
    (sAB.editId = none ∧
      onSubmit sAB vB CallResult.ok LoadResult.err =
        ((loadTodos { sAB with formValues := defaultValues, editId := none }
            LoadResult.err).1,
         [ApiCall.create vB, ApiCall.list],
         Note.success "Todo added!" ::
           (loadTodos { sAB with formValues := defaultValues, editId := none }
              LoadResult.err).2.2)) :=
  ⟨⟨rfl, by decide,
    (onSubmit_success_spec sEditing vB 1 (LoadResult.ok (some [tB]))).1 rfl (by decide)⟩,
   ⟨rfl, (onSubmit_success_spec sAB vB 0 LoadResult.err).2 (Or.inl rfl)⟩⟩

/-- C1: when the listed ids are distinct, a successful delete of a
present nonzero id splits the list around the unique matching record and
keeps everything else in order: the result is exactly the two surrounding
segments concatenated. -/
theorem handleDelete_removes_exactly_one (s : AppState) (i : Int) (hi : i ≠ 0)
    (hnd : (s.todos.filterMap Todo.id).Nodup)
    (hmem : some i ∈ s.todos.map Todo.id) :
    ∃ l1 t l2, s.todos = l1 ++ t :: l2 ∧ t.id = some i ∧
      (handleDelete s (some i) CallResult.ok).1.todos = l1 ++ l2 := by
  have ht : truthyId (some i) = true := by simp [truthyId, hi]
  obtain ⟨t, htmem, hid⟩ := List.mem_map.mp hmem
  obtain ⟨l1, l2, hsplit⟩ := List.append_of_mem htmem
  refine ⟨l1, t, l2, hsplit, hid, ?_⟩
  have hfm : s.todos.filterMap Todo.id
      = l1.filterMap Todo.id ++ i :: l2.filterMap Todo.id := by
    rw [hsplit, List.filterMap_append, List.filterMap_cons_some hid]
  rw [hfm] at hnd
  rw [List.nodup_append] at hnd
  obtain ⟨_, hndB, hdisj⟩ := hnd
  have hiA : i ∉ l1.filterMap Todo.id := fun h => hdisj h (List.mem_cons_self i _)
  have hiB : i ∉ l2.filterMap Todo.id := (List.nodup_cons.mp hndB).1
  have hpt : (t.id != some i) = false := by simp [hid]
  have h1 : l1.filter (fun u => u.id != some i) = l1 := by
    apply List.filter_eq_self.mpr
    intro u hu
    simp only [bne_iff_ne, ne_eq]
    intro heq
    exact hiA (List.mem_filterMap.mpr ⟨u, hu, heq⟩)
  have h2 : l2.filter (fun u => u.id != some i) = l2 := by
    apply List.filter_eq_self.mpr
    intro u hu
    simp only [bne_iff_ne, ne_eq]
    intro heq
    exact hiB (List.mem_filterMap.mpr ⟨u, hu, heq⟩)
  simp only [handleDelete, ht, if_pos]
  rw [hsplit, List.filter_append, List.filter_cons_of_neg (by simp [hpt]), h1, h2]

/-- C1 witness: deleting the present id 2 from the two-record state with
distinct ids removes exactly the record `tB`. -/
theorem handleDelete_removes_exactly_one_witness :
    (2 : Int) ≠ 0 ∧ (sAB.todos.filterMap Todo.id).Nodup ∧
    some (2 : Int) ∈ sAB.todos.map Todo.id ∧
    ∃ l1 t l2, sAB.todos = l1 ++ t :: l2 ∧ t.id = some 2 ∧
      (handleDelete sAB (some 2) CallResult.ok).1.todos = l1 ++ l2 :=
  ⟨by decide, by decide, by decide,
    handleDelete_removes_exactly_one sAB 2 (by decide) (by decide) (by decide)⟩
